import Mathlib

/-!
Verification of the direct-manipulation image-canvas interaction layer of
the AI-Image-Studio RightPanel component. The definitions below are a
shallow embedding, translated from src/components/RightPanel.tsx, of the
crop-box controller, the pan/zoom transform engine, the text-overlay drag
controller, the comparator listener lifecycle, the fit computation and the
rasterized export pipeline. Coordinates are modelled over the rationals.
-/

/-- Crop rectangle in percent coordinates (CropState in types). -/
structure CropState where
  x : ℚ
  y : ℚ
  width : ℚ
  height : ℚ
deriving DecidableEq, Repr

/-- The eight resize handles of the crop box. In the source they are the
strings in the handles array at RightPanel.tsx line 190; membership tests
like resizeHandle.includes('left') are reproduced by the includes*
functions below, which agree with JavaScript substring search on exactly
these eight strings. -/
inductive CropHandle where
  | topLeft | topRight | bottomLeft | bottomRight
  | top | bottom | left | right
deriving DecidableEq, Repr

/-- resizeHandle.includes('left') on the eight handle strings. -/
def CropHandle.includesLeft : CropHandle → Bool
  | .topLeft | .bottomLeft | .left => true
  | _ => false

/-- resizeHandle.includes('right') on the eight handle strings. -/
def CropHandle.includesRight : CropHandle → Bool
  | .topRight | .bottomRight | .right => true
  | _ => false

/-- resizeHandle.includes('top') on the eight handle strings. -/
def CropHandle.includesTop : CropHandle → Bool
  | .topLeft | .topRight | .top => true
  | _ => false

/-- resizeHandle.includes('bottom') on the eight handle strings. -/
def CropHandle.includesBottom : CropHandle → Bool
  | .bottomLeft | .bottomRight | .bottom => true
  | _ => false

/-- The mode of a crop gesture: handleMouseDown(e, null) sets
isDragging (move mode), handleMouseDown(e, handle) sets resizeHandle. -/
inductive CropGesture where
  | move
  | resize (h : CropHandle)
deriving DecidableEq, Repr

/-- dragStart.current = { mouseX, mouseY, ...cropState } captured at
mouse-down (RightPanel.tsx line 141). -/
structure CropDragStart where
  mouseX : ℚ
  mouseY : ℚ
  x : ℚ
  y : ℚ
  width : ℚ
  height : ℚ
deriving DecidableEq, Repr

/-- The candidate rectangle computed by CropBox.handleMouseMove (lines
151-161) before any clamping, as a function of the gesture mode, the
drag-start snapshot and the percent deltas dx, dy. -/
def cropCandidate (g : CropGesture) (s : CropDragStart) (dx dy : ℚ) : CropState :=
  match g with
  | .move =>
      { x := s.x + dx, y := s.y + dy, width := s.width, height := s.height }
  | .resize h =>
      let width := if h.includesRight then s.width + dx else s.width
      let wx : ℚ × ℚ := if h.includesLeft then (width - dx, s.x + dx) else (width, s.x)
      let height := if h.includesBottom then s.height + dy else s.height
      let hy : ℚ × ℚ := if h.includesTop then (height - dy, s.y + dy) else (height, s.y)
      { x := wx.2, y := hy.2, width := wx.1, height := hy.1 }

/-- Size clamp of handleMouseMove (lines 164-165):
width = Math.max(5, Math.min(100, width)), same for height. -/
def cropClampSize (c : CropState) : CropState :=
  { c with width := max 5 (min 100 c.width), height := max 5 (min 100 c.height) }

/-- Position clamp of handleMouseMove (lines 167-168):
x = Math.max(0, Math.min(100 - width, x)), same for y. -/
def cropClampPosition (c : CropState) : CropState :=
  { c with x := max 0 (min (100 - c.width) c.x), y := max 0 (min (100 - c.height) c.y) }

/-- CropBox.handleMouseMove (lines 144-171): candidate rectangle, then the
size clamp, then the position clamp, in that source order. -/
def cropHandleMouseMove (g : CropGesture) (s : CropDragStart) (dx dy : ℚ) : CropState :=
  cropClampPosition (cropClampSize (cropCandidate g s dx dy))

/-- Pan/zoom transform: const [transform, setTransform] =
useState({ scale: 1, x: 0, y: 0 }) (line 491). -/
structure Transform where
  scale : ℚ
  x : ℚ
  y : ℚ
deriving DecidableEq, Repr

/-- handleWheel (lines 578-599): zoomIntensity = 0.001; the image-space
point under the pointer is (mouseX - x)/scale; the new scale is
Math.max(0.5, Math.min(10, scale - deltaY*zoomIntensity)); translation is
recomputed so that point stays under the pointer. mouseX, mouseY are the
pointer position relative to the container rectangle. -/
def handleWheel (t : Transform) (mouseX mouseY deltaY : ℚ) : Transform :=
  let zoomIntensity : ℚ := 1 / 1000
  let imageX := (mouseX - t.x) / t.scale
  let imageY := (mouseY - t.y) / t.scale
  let newScale := max (1 / 2) (min 10 (t.scale - deltaY * zoomIntensity))
  { scale := newScale, x := mouseX - imageX * newScale, y := mouseY - imageY * newScale }

/-- panStart.current = { startX, startY, initialX, initialY } (line 494). -/
structure PanStart where
  startX : ℚ
  startY : ℚ
  initialX : ℚ
  initialY : ℚ
deriving DecidableEq, Repr

/-- Pan-related state of the hosting view: isPanning flag, the current
transform and the pan snapshot. -/
structure PanState where
  isPanning : Bool
  transform : Transform
  panStart : PanStart
deriving DecidableEq, Repr

/-- handleMouseDown for panning (lines 601-615): returns unchanged unless
canZoomPan and e.button === 0 and the target is not a tool element;
otherwise sets isPanning and records the pan snapshot. -/
def handleMouseDownPan (canZoomPan : Bool) (button : ℤ) (targetOnTool : Bool)
    (clientX clientY : ℚ) (s : PanState) : PanState :=
  if !canZoomPan || button != 0 then s
  else if targetOnTool then s
  else
    { s with isPanning := true,
             panStart := ⟨clientX, clientY, s.transform.x, s.transform.y⟩ }

/-- dragStartPos.current of DraggableText (line 16): pointer position plus
the text box's pixel offset from the container at drag start. -/
structure TextDragStart where
  x : ℚ
  y : ℚ
  textX : ℚ
  textY : ℚ
deriving DecidableEq, Repr

/-- DraggableText.handleDragStart (lines 23-36): textX/textY are
textRect.left - containerRect.left and textRect.top - containerRect.top. -/
def textHandleDragStart (clientX clientY textRectLeft textRectTop
    containerLeft containerTop : ℚ) : TextDragStart :=
  ⟨clientX, clientY, textRectLeft - containerLeft, textRectTop - containerTop⟩

/-- DraggableText.handleDragMove (lines 47-61): the new stored percent
position, computed from the snapshot plus the pointer delta and clamped to
[0,100] per axis. W, H are the container rectangle's width and height. -/
def textHandleDragMove (snap : TextDragStart) (W H clientX clientY : ℚ) : ℚ × ℚ :=
  let dx := clientX - snap.x
  let dy := clientY - snap.y
  let newX := snap.textX + dx
  let newY := snap.textY + dy
  (max 0 (min 100 (newX / W * 100)), max 0 (min 100 (newY / H * 100)))

/-- DraggableText.onMouseDown (lines 38-41): calls handleDragStart for any
mouse button (the event's button field is never read) and handleDragStart
sets isDragging to true. Returns the isDragging flag and the snapshot. -/
def textOnMouseDown (button : ℤ) (clientX clientY textRectLeft textRectTop
    containerLeft containerTop : ℚ) : Bool × TextDragStart :=
  let _ := button
  (true, textHandleDragStart clientX clientY textRectLeft textRectTop
    containerLeft containerTop)

/-- Rendered pixel left edge of the text box (lines 98-101): the style puts
left at textOverlay.x percent of the container and then applies
translate(-50%, -50%), so the box's left edge sits at
containerLeft + x/100*W - textWidth/2. -/
def renderedTextLeft (containerLeft W xPercent textWidth : ℚ) : ℚ :=
  containerLeft + xPercent / 100 * W - textWidth / 2

/-- Rendered pixel top edge of the text box (lines 99-101), analogous to
renderedTextLeft with translate(-50%, -50%) in the vertical axis. -/
def renderedTextTop (containerTop H yPercent textHeight : ℚ) : ℚ :=
  containerTop + yPercent / 100 * H - textHeight / 2

/-- CropBox.handleMouseDown (lines 136-142): sets resizeHandle to the
grabbed handle and isDragging to !handle, for any mouse button (the
event's button field is never read). Returns (isDragging, resizeHandle)
and the drag snapshot. -/
def cropHandleMouseDown (button : ℤ) (handle : Option CropHandle)
    (c : CropState) (clientX clientY : ℚ) :
    (Bool × Option CropHandle) × CropDragStart :=
  let _ := button
  ((handle.isNone, handle), ⟨clientX, clientY, c.x, c.y, c.width, c.height⟩)

/-- Global listeners added by the DraggableText effect (lines 67-88): the
four window listeners are added only when isDragging holds, and the
cleanup removes them. -/
def textGlobalListeners (isDragging : Bool) : List String :=
  if isDragging then ["mousemove", "mouseup", "touchmove", "touchend"] else []

/-- Global listeners added by the CropBox effect (lines 179-188): added
only when isDragging || resizeHandle holds. -/
def cropGlobalListeners (isDragging : Bool) (resizeHandle : Option CropHandle) :
    List String :=
  if isDragging || resizeHandle.isSome then ["mousemove", "mouseup"] else []

/-- Lifecycle state of the ImageComparator: whether the component is
mounted, and its isDragging ref (line 240). -/
structure ComparatorLifecycle where
  mounted : Bool
  isDragging : Bool
deriving DecidableEq, Repr

/-- Global listeners of the ImageComparator effect (lines 273-295): the
effect has an empty dependency list, so the four window listeners are
added at mount and removed only at unmount, regardless of isDragging. -/
def comparatorGlobalListeners (s : ComparatorLifecycle) : List String :=
  if s.mounted then ["mousemove", "touchmove", "mouseup", "touchend"] else []

/-- Fit metrics: initialImageMetrics { width, height, initialX, initialY }
(line 492). -/
structure InitialImageMetrics where
  width : ℚ
  height : ℚ
  initialX : ℚ
  initialY : ℚ
deriving DecidableEq, Repr

/-- updateFit (lines 531-551): compares the container aspect to the image
aspect, height-fills or width-fills, centers horizontally and pins to the
top, and resets the transform to scale 1 at that position. Returns the new
initialImageMetrics and the new transform. -/
def updateFit (naturalWidth naturalHeight clientWidth clientHeight : ℚ) :
    InitialImageMetrics × Transform :=
  let cAspect := clientWidth / clientHeight
  let iAspect := naturalWidth / naturalHeight
  let wh : ℚ × ℚ :=
    if cAspect > iAspect then
      (clientHeight * iAspect, clientHeight)
    else
      (clientWidth, clientWidth / iAspect)
  let left := (clientWidth - wh.1) / 2
  let top : ℚ := 0
  (⟨wh.1, wh.2, left, top⟩, ⟨1, left, top⟩)

/-- Abstract state of the download subsystem: the isProcessingDownload
flag (line 484), the number of exports currently in flight, and the number
of completed triggered downloads. -/
structure DownloadState where
  isProcessingDownload : Bool
  inFlight : ℕ
  downloadsTriggered : ℕ
deriving DecidableEq, Repr

/-- Events of the download subsystem: an invocation of
handleDownloadImage (with or without a current image), and the completion
of the in-flight export (success or error), at which the finally block
resets the flag. -/
inductive DownloadEvent where
  | invoke (hasImage : Bool)
  | complete (success : Bool)
deriving DecidableEq, Repr

/-- One step of the download subsystem. invoke follows the guard of
handleDownloadImage (line 647): if isProcessingDownload || !currentImage it
returns with the state untouched, otherwise it sets the flag and starts one
export. complete models the end of the in-flight promise: the finally
block (line 694) resets the flag; on success the link click (line 681) has
triggered one download. -/
def downloadStep (s : DownloadState) (e : DownloadEvent) : DownloadState :=
  match e with
  | .invoke hasImage =>
      if s.isProcessingDownload || !hasImage then s
      else { s with isProcessingDownload := true, inFlight := s.inFlight + 1 }
  | .complete success =>
      if s.isProcessingDownload then
        { isProcessingDownload := false, inFlight := s.inFlight - 1,
          downloadsTriggered := s.downloadsTriggered + (if success then 1 else 0) }
      else s

/-- Initial download state: flag false, nothing in flight. -/
def downloadInit : DownloadState := ⟨false, 0, 0⟩

/-- Run of the download subsystem over a list of events from the initial
state. -/
def downloadRun (evs : List DownloadEvent) : DownloadState :=
  evs.foldl downloadStep downloadInit

/-- The in-flight export count agrees with the isProcessingDownload flag:
one export is running exactly while the flag is set. -/
def DownloadInv (s : DownloadState) : Prop :=
  s.inFlight = if s.isProcessingDownload then 1 else 0

/-- DownloadModal.handleDownloadClick (lines 371-374): returns whether
onDownload is invoked; if isDownloading it returns immediately. -/
def handleDownloadClick (isDownloading : Bool) : Bool :=
  !isDownloading

/-- Outcome of the asynchronous part of handleDownloadImage: success, or
one of its three failure sites: the canvas context is unavailable (line
662), the image fails to load (line 688), or drawing throws (line 684). -/
inductive ExportOutcome where
  | success
  | noContext
  | imageLoadError
  | drawError
deriving DecidableEq, Repr

/-- Observable actions of one handleDownloadImage invocation: writes of
the isProcessingDownload flag, the triggered file download, and the error
alert of the catch block. -/
inductive ExportAction where
  | setFlag (b : Bool)
  | triggerDownload
  | reportError
deriving DecidableEq, Repr

/-- The action trace of handleDownloadImage (lines 646-698): the guard
returns an empty trace; otherwise setIsProcessingDownload(true) runs, the
try body either triggers the download (success) or rejects into the catch
block's alert (each error site), and the finally block appends
setIsProcessingDownload(false) after every one of those paths. -/
def exportTrace (isProcessingDownload hasImage : Bool) (outcome : ExportOutcome) :
    List ExportAction :=
  if isProcessingDownload || !hasImage then []
  else
    ExportAction.setFlag true ::
      ((match outcome with
        | .success => [ExportAction.triggerDownload]
        | .noContext => [ExportAction.reportError]
        | .imageLoadError => [ExportAction.reportError]
        | .drawError => [ExportAction.reportError]) ++
       [ExportAction.setFlag false])

/-- The value of the isProcessingDownload flag after a trace, starting
from a given value. -/
def runFlag (init : Bool) : List ExportAction → Bool
  | [] => init
  | ExportAction.setFlag b :: rest => runFlag b rest
  | _ :: rest => runFlag init rest

/-- A straight-alpha color. Channels are rationals; an encoded color has
channels in [0,1], alpha 0 is fully transparent, alpha 1 opaque. -/
structure RGBA where
  r : ℚ
  g : ℚ
  b : ℚ
  a : ℚ
deriving DecidableEq, Repr

/-- Fully transparent pixel: the initial content of a fresh canvas. -/
def RGBA.transparent : RGBA := ⟨0, 0, 0, 0⟩

/-- Opaque white, the ctx.fillStyle = '#FFFFFF' of line 668. -/
def RGBA.white : RGBA := ⟨1, 1, 1, 1⟩

/-- Source-over compositing of a source pixel s onto a destination pixel
d, the default canvas drawImage operation, in straight alpha. -/
def sourceOver (s d : RGBA) : RGBA :=
  let a := s.a + d.a * (1 - s.a)
  if a = 0 then RGBA.transparent
  else
    ⟨(s.r * s.a + d.r * d.a * (1 - s.a)) / a,
     (s.g * s.a + d.g * d.a * (1 - s.a)) / a,
     (s.b * s.a + d.b * d.a * (1 - s.a)) / a, a⟩

/-- Export format, 'png' | 'jpeg' of DownloadOptions (line 342). -/
inductive ImageFormat where
  | png
  | jpeg
deriving DecidableEq, Repr

/-- The off-screen export canvas: pixel dimensions plus the pixel
contents. -/
structure ExportCanvas where
  width : ℕ
  height : ℕ
  pixel : ℕ → ℕ → RGBA

/-- The canvas setup of handleDownloadImage (lines 660-675):
canvas.width = naturalWidth*scale, canvas.height = naturalHeight*scale; a
fresh canvas is fully transparent; when format is jpeg,
ctx.fillRect(0, 0, canvas.width, canvas.height) first fills every pixel
with opaque white, and no fill happens for png; then
ctx.drawImage(image, 0, 0, canvas.width, canvas.height) composites the
scaled source with source-over. src gives the scaled source image sampled
at canvas resolution. -/
def exportCanvas (naturalWidth naturalHeight scale : ℕ) (format : ImageFormat)
    (src : ℕ → ℕ → RGBA) : ExportCanvas :=
  let base : ℕ → ℕ → RGBA := fun _ _ => RGBA.transparent
  let filled : ℕ → ℕ → RGBA :=
    if format = ImageFormat.jpeg then fun _ _ => RGBA.white else base
  { width := naturalWidth * scale,
    height := naturalHeight * scale,
    pixel := fun px py => sourceOver (src px py) (filled px py) }

/-- Claim C1: every crop move/resize step, from any snapshot and any pointer
delta, yields a rectangle with width and height in [5,100], x in
[0, 100-width] and y in [0, 100-height]; the result is the position clamp
applied after the size clamp. -/
theorem crop_move_clamp_invariant (g : CropGesture) (s : CropDragStart) (dx dy : ℚ) :
    5 ≤ (cropHandleMouseMove g s dx dy).width ∧
    (cropHandleMouseMove g s dx dy).width ≤ 100 ∧
    5 ≤ (cropHandleMouseMove g s dx dy).height ∧
    (cropHandleMouseMove g s dx dy).height ≤ 100 ∧
    0 ≤ (cropHandleMouseMove g s dx dy).x ∧
    (cropHandleMouseMove g s dx dy).x ≤ 100 - (cropHandleMouseMove g s dx dy).width ∧
    0 ≤ (cropHandleMouseMove g s dx dy).y ∧
    (cropHandleMouseMove g s dx dy).y ≤ 100 - (cropHandleMouseMove g s dx dy).height ∧
    cropHandleMouseMove g s dx dy =
      cropClampPosition (cropClampSize (cropCandidate g s dx dy)) := by
  set c := cropCandidate g s dx dy with hc
  have hw5 : (5 : ℚ) ≤ max 5 (min 100 c.width) := le_max_left _ _
  have hw100 : max 5 (min 100 c.width) ≤ 100 :=
    max_le (by norm_num) (min_le_left _ _)
  have hh5 : (5 : ℚ) ≤ max 5 (min 100 c.height) := le_max_left _ _
  have hh100 : max 5 (min 100 c.height) ≤ 100 :=
    max_le (by norm_num) (min_le_left _ _)
  refine ⟨?_, ?_, ?_, ?_, ?_, ?_, ?_, ?_, rfl⟩ <;>
    simp only [cropHandleMouseMove, cropClampPosition, cropClampSize, ← hc]
  · exact hw5
  · exact hw100
  · exact hh5
  · exact hh100
  · exact le_max_left _ _
  · exact max_le (by linarith) (min_le_left _ _)
  · exact le_max_left _ _
  · exact max_le (by linarith) (min_le_left _ _)

/-- Claim C2: for every transform with scale in [0.5,10], every pointer
position and every wheel delta, handleWheel clamps the new scale to
[0.5,10], sets newX = pointerX - imageX*newScale (same for y), and the
image-space point under the pointer is unchanged. -/
theorem wheel_zoom_anchor (t : Transform) (mouseX mouseY deltaY : ℚ)
    (hlo : 1 / 2 ≤ t.scale) (hhi : t.scale ≤ 10) :
    (1 / 2 ≤ (handleWheel t mouseX mouseY deltaY).scale ∧
      (handleWheel t mouseX mouseY deltaY).scale ≤ 10) ∧
    (handleWheel t mouseX mouseY deltaY).x =
      mouseX - (mouseX - t.x) / t.scale * (handleWheel t mouseX mouseY deltaY).scale ∧
    (handleWheel t mouseX mouseY deltaY).y =
      mouseY - (mouseY - t.y) / t.scale * (handleWheel t mouseX mouseY deltaY).scale ∧
    (mouseX - (handleWheel t mouseX mouseY deltaY).x) /
        (handleWheel t mouseX mouseY deltaY).scale = (mouseX - t.x) / t.scale ∧
    (mouseY - (handleWheel t mouseX mouseY deltaY).y) /
        (handleWheel t mouseX mouseY deltaY).scale = (mouseY - t.y) / t.scale := by
  have hne : max (1 / 2 : ℚ) (min 10 (t.scale - deltaY * (1 / 1000))) ≠ 0 := by
    have h2 : (0 : ℚ) < 1 / 2 := by norm_num
    exact ne_of_gt (lt_of_lt_of_le h2 (le_max_left _ _))
  refine ⟨⟨?_, ?_⟩, rfl, rfl, ?_, ?_⟩
  · show (1 / 2 : ℚ) ≤ max (1 / 2) (min 10 (t.scale - deltaY * (1 / 1000)))
    exact le_max_left _ _
  · show max (1 / 2 : ℚ) (min 10 (t.scale - deltaY * (1 / 1000))) ≤ 10
    exact max_le (by norm_num) (min_le_left _ _)
  · show (mouseX - (mouseX - (mouseX - t.x) / t.scale *
        max (1 / 2) (min 10 (t.scale - deltaY * (1 / 1000))))) /
        max (1 / 2) (min 10 (t.scale - deltaY * (1 / 1000))) = (mouseX - t.x) / t.scale
    have hx : mouseX - (mouseX - (mouseX - t.x) / t.scale *
        max (1 / 2) (min 10 (t.scale - deltaY * (1 / 1000)))) =
        (mouseX - t.x) / t.scale * max (1 / 2) (min 10 (t.scale - deltaY * (1 / 1000))) := by
      ring
    rw [hx, mul_div_cancel_right₀ _ hne]
  · show (mouseY - (mouseY - (mouseY - t.y) / t.scale *
        max (1 / 2) (min 10 (t.scale - deltaY * (1 / 1000))))) /
        max (1 / 2) (min 10 (t.scale - deltaY * (1 / 1000))) = (mouseY - t.y) / t.scale
    have hy : mouseY - (mouseY - (mouseY - t.y) / t.scale *
        max (1 / 2) (min 10 (t.scale - deltaY * (1 / 1000)))) =
        (mouseY - t.y) / t.scale * max (1 / 2) (min 10 (t.scale - deltaY * (1 / 1000))) := by
      ring
    rw [hy, mul_div_cancel_right₀ _ hne]

/-- Witness for claim C2 at transform {scale 1, x 0, y 0}, pointer (10,10)
and wheel delta 100. -/
theorem wheel_zoom_anchor_witness :
    (1 / 2 ≤ (handleWheel ⟨1, 0, 0⟩ 10 10 100).scale ∧
      (handleWheel ⟨1, 0, 0⟩ 10 10 100).scale ≤ 10) ∧
    (handleWheel ⟨1, 0, 0⟩ 10 10 100).x =
      10 - (10 - (Transform.mk 1 0 0).x) / (Transform.mk 1 0 0).scale *
        (handleWheel ⟨1, 0, 0⟩ 10 10 100).scale ∧
    (handleWheel ⟨1, 0, 0⟩ 10 10 100).y =
      10 - (10 - (Transform.mk 1 0 0).y) / (Transform.mk 1 0 0).scale *
        (handleWheel ⟨1, 0, 0⟩ 10 10 100).scale ∧
    (10 - (handleWheel ⟨1, 0, 0⟩ 10 10 100).x) / (handleWheel ⟨1, 0, 0⟩ 10 10 100).scale =
      (10 - (Transform.mk 1 0 0).x) / (Transform.mk 1 0 0).scale ∧
    (10 - (handleWheel ⟨1, 0, 0⟩ 10 10 100).y) / (handleWheel ⟨1, 0, 0⟩ 10 10 100).scale =
      (10 - (Transform.mk 1 0 0).y) / (Transform.mk 1 0 0).scale :=
  wheel_zoom_anchor ⟨1, 0, 0⟩ 10 10 100 (by norm_num) (by norm_num)

/-- If the candidate rectangle already satisfies the crop invariants, the
two clamp passes leave it unchanged. -/
theorem crop_clamp_fixed (c : CropState)
    (hw1 : 5 ≤ c.width) (hw2 : c.width ≤ 100)
    (hh1 : 5 ≤ c.height) (hh2 : c.height ≤ 100)
    (hx1 : 0 ≤ c.x) (hx2 : c.x ≤ 100 - c.width)
    (hy1 : 0 ≤ c.y) (hy2 : c.y ≤ 100 - c.height) :
    cropClampPosition (cropClampSize c) = c := by
  obtain ⟨cx, cy, cw, ch⟩ := c
  simp only at hw1 hw2 hh1 hh2 hx1 hx2 hy1 hy2
  have hW : max 5 (min 100 cw) = cw := by rw [min_eq_right hw2, max_eq_right hw1]
  have hH : max 5 (min 100 ch) = ch := by rw [min_eq_right hh2, max_eq_right hh1]
  simp only [cropClampSize, cropClampPosition, hW, hH]
  have hX : max 0 (min (100 - cw) cx) = cx := by rw [min_eq_right hx2, max_eq_right hx1]
  have hY : max 0 (min (100 - ch) cy) = cy := by rw [min_eq_right hy2, max_eq_right hy1]
  simp [hX, hY]

/-- Claim C3: when no clamp limit binds (the candidate rectangle already
satisfies the crop invariants), resizing via a handle containing "left"
keeps the right edge x+width at its snapshot value; a "right" handle keeps
x fixed, a "top" handle keeps y+height fixed, a "bottom" handle keeps y
fixed. -/
theorem crop_resize_anchor_edge (h : CropHandle) (s : CropDragStart) (dx dy : ℚ)
    (hw1 : 5 ≤ (cropCandidate (.resize h) s dx dy).width)
    (hw2 : (cropCandidate (.resize h) s dx dy).width ≤ 100)
    (hh1 : 5 ≤ (cropCandidate (.resize h) s dx dy).height)
    (hh2 : (cropCandidate (.resize h) s dx dy).height ≤ 100)
    (hx1 : 0 ≤ (cropCandidate (.resize h) s dx dy).x)
    (hx2 : (cropCandidate (.resize h) s dx dy).x ≤
      100 - (cropCandidate (.resize h) s dx dy).width)
    (hy1 : 0 ≤ (cropCandidate (.resize h) s dx dy).y)
    (hy2 : (cropCandidate (.resize h) s dx dy).y ≤
      100 - (cropCandidate (.resize h) s dx dy).height) :
    (h.includesLeft = true →
      (cropHandleMouseMove (.resize h) s dx dy).x +
        (cropHandleMouseMove (.resize h) s dx dy).width = s.x + s.width) ∧
    (h.includesRight = true → (cropHandleMouseMove (.resize h) s dx dy).x = s.x) ∧
    (h.includesTop = true →
      (cropHandleMouseMove (.resize h) s dx dy).y +
        (cropHandleMouseMove (.resize h) s dx dy).height = s.y + s.height) ∧
    (h.includesBottom = true → (cropHandleMouseMove (.resize h) s dx dy).y = s.y) := by
  have hid : cropHandleMouseMove (.resize h) s dx dy = cropCandidate (.resize h) s dx dy :=
    crop_clamp_fixed _ hw1 hw2 hh1 hh2 hx1 hx2 hy1 hy2
  rw [hid]
  cases h <;>
    simp [cropCandidate, CropHandle.includesLeft, CropHandle.includesRight,
      CropHandle.includesTop, CropHandle.includesBottom]

/-- Witness for claim C3: the top-left handle on the snapshot rectangle
(20,20,40,40) with deltas (5,5). -/
theorem crop_resize_anchor_edge_witness :
    (CropHandle.topLeft.includesLeft = true →
      (cropHandleMouseMove (.resize .topLeft) ⟨0, 0, 20, 20, 40, 40⟩ 5 5).x +
        (cropHandleMouseMove (.resize .topLeft) ⟨0, 0, 20, 20, 40, 40⟩ 5 5).width =
        (CropDragStart.mk 0 0 20 20 40 40).x + (CropDragStart.mk 0 0 20 20 40 40).width) ∧
    (CropHandle.topLeft.includesRight = true →
      (cropHandleMouseMove (.resize .topLeft) ⟨0, 0, 20, 20, 40, 40⟩ 5 5).x =
        (CropDragStart.mk 0 0 20 20 40 40).x) ∧
    (CropHandle.topLeft.includesTop = true →
      (cropHandleMouseMove (.resize .topLeft) ⟨0, 0, 20, 20, 40, 40⟩ 5 5).y +
        (cropHandleMouseMove (.resize .topLeft) ⟨0, 0, 20, 20, 40, 40⟩ 5 5).height =
        (CropDragStart.mk 0 0 20 20 40 40).y + (CropDragStart.mk 0 0 20 20 40 40).height) ∧
    (CropHandle.topLeft.includesBottom = true →
      (cropHandleMouseMove (.resize .topLeft) ⟨0, 0, 20, 20, 40, 40⟩ 5 5).y =
        (CropDragStart.mk 0 0 20 20 40 40).y) :=
  crop_resize_anchor_edge .topLeft ⟨0, 0, 20, 20, 40, 40⟩ 5 5
    (by norm_num [cropCandidate, CropHandle.includesLeft, CropHandle.includesRight,
      CropHandle.includesTop, CropHandle.includesBottom])
    (by norm_num [cropCandidate, CropHandle.includesLeft, CropHandle.includesRight,
      CropHandle.includesTop, CropHandle.includesBottom])
    (by norm_num [cropCandidate, CropHandle.includesLeft, CropHandle.includesRight,
      CropHandle.includesTop, CropHandle.includesBottom])
    (by norm_num [cropCandidate, CropHandle.includesLeft, CropHandle.includesRight,
      CropHandle.includesTop, CropHandle.includesBottom])
    (by norm_num [cropCandidate, CropHandle.includesLeft, CropHandle.includesRight,
      CropHandle.includesTop, CropHandle.includesBottom])
    (by norm_num [cropCandidate, CropHandle.includesLeft, CropHandle.includesRight,
      CropHandle.includesTop, CropHandle.includesBottom])
    (by norm_num [cropCandidate, CropHandle.includesLeft, CropHandle.includesRight,
      CropHandle.includesTop, CropHandle.includesBottom])
    (by norm_num [cropCandidate, CropHandle.includesLeft, CropHandle.includesRight,
      CropHandle.includesTop, CropHandle.includesBottom])

/-- Claim C5: for an 800x600 container and a 1600x800 image the fit is
width 800, height 400, initialX 0, initialY 0 with transform reset to
scale 1 at (0,0); in general the fitted image is horizontally centered and
pinned to the top, and the transform resets to scale 1 at that position. -/
theorem fit_computation :
    updateFit 1600 800 800 600 = (⟨800, 400, 0, 0⟩, ⟨1, 0, 0⟩) ∧
    ∀ nw nh cw ch : ℚ,
      (updateFit nw nh cw ch).1.initialX = (cw - (updateFit nw nh cw ch).1.width) / 2 ∧
      (updateFit nw nh cw ch).1.initialY = 0 ∧
      (updateFit nw nh cw ch).2 =
        ⟨1, (updateFit nw nh cw ch).1.initialX, (updateFit nw nh cw ch).1.initialY⟩ := by
  constructor
  · norm_num [updateFit]
  · intro nw nh cw ch
    exact ⟨rfl, rfl, rfl⟩

/-- Claim C6 is violated by the text overlay: the drag-start snapshot
records the text box's top-left pixel corner, but the render anchors the
box's center (left/top percent plus translate(-50%,-50%)), so a drag with
zero net pointer movement moves the stored position. Concretely: container
100x100 at the origin, text box 20x10, overlay at (50,50); a mouse-down at
(30,30) followed by a mouse-move at (30,30) stores (40,45), not (50,50). -/
theorem text_zero_move_drag_shifts :
    textHandleDragMove
        (textHandleDragStart 30 30 (renderedTextLeft 0 100 50 20)
          (renderedTextTop 0 100 50 10) 0 0)
        100 100 30 30 = (40, 45) ∧
    ((40 : ℚ), (45 : ℚ)) ≠ ((50 : ℚ), (50 : ℚ)) := by
  constructor
  · norm_num [textHandleDragMove, textHandleDragStart, renderedTextLeft,
      renderedTextTop, min_def, max_def]
  · norm_num

/-- Counterexample to claim C7: a mouse-down with secondary button 2 on
the crop box body still starts a move drag (isDragging becomes true), and
on the text overlay still starts a text drag; neither handler reads the
event's button. -/
theorem secondary_button_starts_crop_drag :
    (2 : ℤ) ≠ 0 ∧
    ((cropHandleMouseDown 2 none ⟨25, 25, 50, 50⟩ 10 10).1.1 = true) ∧
    ((textOnMouseDown 2 10 10 40 45 0 0).1 = true) :=
  ⟨by decide, rfl, rfl⟩

/-- Claim C7 amended: the pan surface's mouse-down ignores secondary
buttons (state unchanged); the text overlay and crop box mouse-down
handlers never inspect the button and behave identically for every
button. -/
theorem secondary_button_pan_only (canZoomPan : Bool) (b : ℤ) (hb : b ≠ 0)
    (targetOnTool : Bool) (cx cy : ℚ) (s : PanState)
    (handle : Option CropHandle) (c : CropState) (tl tt cl ct : ℚ) :
    handleMouseDownPan canZoomPan b targetOnTool cx cy s = s ∧
    cropHandleMouseDown b handle c cx cy = cropHandleMouseDown 0 handle c cx cy ∧
    textOnMouseDown b cx cy tl tt cl ct = textOnMouseDown 0 cx cy tl tt cl ct := by
  refine ⟨?_, rfl, rfl⟩
  simp [handleMouseDownPan, hb]

/-- Witness for the amended claim C7 at button 2 on a concrete pan state,
crop state and text geometry. -/
theorem secondary_button_pan_only_witness :
    handleMouseDownPan true 2 false 0 0 ⟨false, ⟨1, 0, 0⟩, ⟨0, 0, 0, 0⟩⟩ =
      ⟨false, ⟨1, 0, 0⟩, ⟨0, 0, 0, 0⟩⟩ ∧
    cropHandleMouseDown 2 none ⟨25, 25, 50, 50⟩ 0 0 =
      cropHandleMouseDown 0 none ⟨25, 25, 50, 50⟩ 0 0 ∧
    textOnMouseDown 2 0 0 40 45 0 0 = textOnMouseDown 0 0 0 40 45 0 0 :=
  secondary_button_pan_only true 2 (by decide) false 0 0
    ⟨false, ⟨1, 0, 0⟩, ⟨0, 0, 0, 0⟩⟩ none ⟨25, 25, 50, 50⟩ 40 45 0 0

/-- Counterexample to claim C9: the mounted ImageComparator keeps its
global pointer listeners registered while no interaction is active
(isDragging false), because its listener effect has an empty dependency
list. -/
theorem comparator_listeners_when_idle :
    ({ mounted := true, isDragging := false } : ComparatorLifecycle).isDragging = false ∧
    comparatorGlobalListeners { mounted := true, isDragging := false } ≠ [] := by
  refine ⟨rfl, ?_⟩
  simp [comparatorGlobalListeners]

/-- Claim C9 amended: the DraggableText and CropBox controllers register
their gesture-tracking global listeners only while their gesture is
active; the ImageComparator instead keeps its global listeners registered
for its entire mounted lifetime, gating move handling with an internal
flag. -/
theorem gesture_scoped_listeners :
    (∀ d : Bool, d = false → textGlobalListeners d = []) ∧
    (∀ (d : Bool) (h : Option CropHandle), d = false → h = none →
      cropGlobalListeners d h = []) ∧
    (∀ s : ComparatorLifecycle, s.mounted = true → comparatorGlobalListeners s ≠ []) := by
  refine ⟨?_, ?_, ?_⟩
  · intro d hd
    simp [textGlobalListeners, hd]
  · intro d h hd hh
    simp [cropGlobalListeners, hd, hh]
  · intro s hs
    simp [comparatorGlobalListeners, hs]

/-- Witness for the amended claim C9 in the idle states of the three
controllers. -/
theorem gesture_scoped_listeners_witness :
    textGlobalListeners false = [] ∧
    cropGlobalListeners false none = [] ∧
    comparatorGlobalListeners ⟨true, false⟩ ≠ [] :=
  ⟨gesture_scoped_listeners.1 false rfl,
   gesture_scoped_listeners.2.1 false none rfl rfl,
   gesture_scoped_listeners.2.2 ⟨true, false⟩ rfl⟩

/-- One download step preserves the in-flight/flag agreement. -/
theorem downloadStep_inv (s : DownloadState) (e : DownloadEvent)
    (h : DownloadInv s) : DownloadInv (downloadStep s e) := by
  cases e with
  | invoke hasImage =>
      by_cases hp : s.isProcessingDownload = true
      · simpa [DownloadInv, downloadStep, hp] using h
      · have hp' : s.isProcessingDownload = false := by
          simpa using hp
        cases hasImage with
        | false => simpa [DownloadInv, downloadStep, hp'] using h
        | true =>
            simp [DownloadInv, downloadStep, hp'] at h ⊢
            omega
  | complete success =>
      by_cases hp : s.isProcessingDownload = true
      · simp [DownloadInv, downloadStep, hp] at h ⊢
        omega
      · have hp' : s.isProcessingDownload = false := by
          simpa using hp
        simpa [DownloadInv, downloadStep, hp'] using h

/-- Every reachable download state satisfies the in-flight/flag
agreement. -/
theorem downloadRun_inv (evs : List DownloadEvent) : DownloadInv (downloadRun evs) := by
  have aux : ∀ (l : List DownloadEvent) (s : DownloadState), DownloadInv s →
      DownloadInv (l.foldl downloadStep s) := by
    intro l
    induction l with
    | nil => intro s hs; exact hs
    | cons e rest ih =>
        intro s hs
        exact ih _ (downloadStep_inv s e hs)
  exact aux evs downloadInit (by simp [DownloadInv, downloadInit])

/-- Claim C4: in every reachable state at most one export is in flight,
invoking handleDownloadImage while one is in progress returns immediately
with the state (flag and download count) unchanged, and the modal's
download click is a no-op while isDownloading. -/
theorem single_flight_export (evs : List DownloadEvent) :
    (downloadRun evs).inFlight ≤ 1 ∧
    (∀ hasImage : Bool, (downloadRun evs).isProcessingDownload = true →
      downloadStep (downloadRun evs) (DownloadEvent.invoke hasImage) = downloadRun evs) ∧
    handleDownloadClick true = false := by
  refine ⟨?_, ?_, rfl⟩
  · have h := downloadRun_inv evs
    unfold DownloadInv at h
    rw [h]
    split <;> norm_num
  · intro hasImage hproc
    simp [downloadStep, hproc]

/-- Witness for claim C4 after one successful invocation: the flag is set
and a second invocation leaves the state unchanged. -/
theorem single_flight_export_witness :
    (downloadRun [DownloadEvent.invoke true]).isProcessingDownload = true ∧
    downloadStep (downloadRun [DownloadEvent.invoke true]) (DownloadEvent.invoke true) =
      downloadRun [DownloadEvent.invoke true] :=
  ⟨by decide, (single_flight_export [DownloadEvent.invoke true]).2.1 true (by decide)⟩

/-- Claim C10: whenever the guard of handleDownloadImage passes, the trace
of the invocation begins by setting the in-progress flag, and on every
outcome (success, missing canvas context, image load failure, drawing
exception) it ends by resetting it, so the flag is false afterwards. -/
theorem export_flag_reset (p hasImage : Bool) (o : ExportOutcome)
    (hp : p = false) (hi : hasImage = true) :
    runFlag false (exportTrace p hasImage o) = false ∧
    (exportTrace p hasImage o).head? = some (ExportAction.setFlag true) ∧
    (exportTrace p hasImage o).getLast? = some (ExportAction.setFlag false) := by
  subst hp
  subst hi
  cases o <;> exact ⟨rfl, rfl, rfl⟩

/-- Witness for claim C10 on the successful outcome. -/
theorem export_flag_reset_witness :
    runFlag false (exportTrace false true ExportOutcome.success) = false ∧
    (exportTrace false true ExportOutcome.success).head? =
      some (ExportAction.setFlag true) ∧
    (exportTrace false true ExportOutcome.success).getLast? =
      some (ExportAction.setFlag false) :=
  export_flag_reset false true ExportOutcome.success rfl rfl

/-- Claim C8: the export canvas is naturalWidth*scale x naturalHeight*scale
in both formats; jpeg export fills the canvas with opaque white before
compositing, so every output pixel is opaque and fully transparent source
pixels become opaque white; png export draws over the transparent fresh
canvas and preserves each pixel's alpha. -/
theorem export_format_transparency (nw nh k : ℕ) (src : ℕ → ℕ → RGBA) :
    (exportCanvas nw nh k .jpeg src).width = nw * k ∧
    (exportCanvas nw nh k .jpeg src).height = nh * k ∧
    (exportCanvas nw nh k .png src).width = nw * k ∧
    (exportCanvas nw nh k .png src).height = nh * k ∧
    (∀ px py, ((exportCanvas nw nh k .jpeg src).pixel px py).a = 1) ∧
    (∀ px py, (src px py).a = 0 →
      (exportCanvas nw nh k .jpeg src).pixel px py = RGBA.white) ∧
    (∀ px py, ((exportCanvas nw nh k .png src).pixel px py).a = (src px py).a) := by
  have key : ∀ q : ℚ, q + RGBA.white.a * (1 - q) = 1 := by
    intro q
    simp [RGBA.white]
  have key' : ∀ q : ℚ, q + 1 * (1 - q) = 1 := by
    intro q
    ring
  refine ⟨rfl, rfl, rfl, rfl, ?_, ?_, ?_⟩
  · intro px py
    show (sourceOver (src px py) RGBA.white).a = 1
    simp [sourceOver, key, key']
  · intro px py hsa
    show sourceOver (src px py) RGBA.white = RGBA.white
    simp [sourceOver, RGBA.white, hsa]
  · intro px py
    show (sourceOver (src px py) RGBA.transparent).a = (src px py).a
    rcases eq_or_ne (src px py).a 0 with hsa | hsa
    · simp [sourceOver, RGBA.transparent, RGBA.white, hsa]
    · simp [sourceOver, RGBA.transparent, hsa]

/-- Witness for claim C8: a fully transparent 500x300 source exported at
scale 2 as jpeg yields a 1000-wide canvas whose pixels are opaque white. -/
theorem export_format_transparency_witness :
    ((fun _ _ => RGBA.transparent : ℕ → ℕ → RGBA) 0 0).a = 0 ∧
    (exportCanvas 500 300 2 .jpeg (fun _ _ => RGBA.transparent)).width = 1000 ∧
    (exportCanvas 500 300 2 .jpeg (fun _ _ => RGBA.transparent)).pixel 0 0 = RGBA.white := by
  refine ⟨rfl, ?_, ?_⟩
  · have h := (export_format_transparency 500 300 2 (fun _ _ => RGBA.transparent)).1
    simpa using h
  · exact (export_format_transparency 500 300 2
      (fun _ _ => RGBA.transparent)).2.2.2.2.2.1 0 0 rfl
